import Mathlib

/-!
Shallow embedding of the decision engine of `autosuspend`
(`src/autosuspend/__init__.py`): the two aggregation functions
`execute_checks` and `execute_wakeups`, the idle-tracking state machine
`Processor.iteration`, and the action dispatchers `execute_suspend`,
`notify_suspend`, `notify_and_suspend` and `schedule_wakeup`.

Modelling conventions:
* Instants (`datetime.datetime`) and durations in seconds are modelled as
  `Int`; the engine only subtracts and compares them.
* A probe is represented by the outcome of invoking it on this tick:
  an `ActivityResult` for activity checks (a reason string, no activity,
  or a `TemporaryCheckError`) and a `WakeResult` for wakeup checks.
* The external command executor (`subprocess.check_call`) is modelled by an
  environment `env : String → Bool` saying whether a given command exits
  with status zero; a raised `CalledProcessError` is an `Except` error.
-/

namespace Autosuspend

/-- Outcome of invoking one activity check (`Activity.check()` in the
source): a non-null reason string, `None`, or a raised
`TemporaryCheckError`. -/
inductive ActivityResult where
  | reason (s : String)
  | noActivity
  | transientError
  deriving DecidableEq, Repr

/-- Whether a single check result counts as a match in `execute_checks`
(`result is not None` with no exception raised). -/
def checkMatched : ActivityResult → Bool
  | .reason _ => true
  | .noActivity => false
  | .transientError => false

/-- The loop of `execute_checks` with its `matched` accumulator: each check
is invoked; a raised `TemporaryCheckError` is logged and ignored; a
non-null result sets `matched` and, unless `all_checks`, breaks. -/
def execute_checks_loop (checks : List ActivityResult) (all_checks : Bool)
    (matched : Bool) : Bool :=
  match checks with
  | [] => matched
  | c :: rest =>
    match c with
    | .reason _ =>
      if !all_checks then true
      else execute_checks_loop rest all_checks true
    | .noActivity => execute_checks_loop rest all_checks matched
    | .transientError => execute_checks_loop rest all_checks matched

/-- The function `execute_checks(checks, all_checks, logger)` from the source: returns
whether any check matched. -/
def execute_checks (checks : List ActivityResult) (all_checks : Bool) : Bool :=
  execute_checks_loop checks all_checks false

/-- The list of checks actually invoked by `execute_checks`: the loop
breaks right after the first match when `all_checks` is false, so checks
after the break point are never invoked. -/
def execute_checks_invoked (checks : List ActivityResult)
    (all_checks : Bool) : List ActivityResult :=
  match checks with
  | [] => []
  | c :: rest =>
    match c with
    | .reason _ =>
      if !all_checks then [c]
      else c :: execute_checks_invoked rest all_checks
    | .noActivity => c :: execute_checks_invoked rest all_checks
    | .transientError => c :: execute_checks_invoked rest all_checks

/-- Outcome of invoking one wakeup check (`Wakeup.check(timestamp)`): a
scheduled instant, `None`, or a raised `TemporaryCheckError`. -/
inductive WakeResult where
  | wakeAt (t : Int)
  | noWakeup
  | transientError
  deriving DecidableEq, Repr

/-- One step of the `wakeup_at` accumulator of `execute_wakeups`:
`wakeup_at = this_at` when no candidate was seen yet, else
`min(this_at, wakeup_at)`. -/
def optMinStep (acc : Option Int) (v : Int) : Option Int :=
  match acc with
  | none => some v
  | some cur => some (min v cur)

/-- The loop of `execute_wakeups`: skip `None` results, skip results at or
before `timestamp` (with a warning), skip checks raising
`TemporaryCheckError`, and track the minimum of the rest. -/
def execute_wakeups_loop (wakeups : List WakeResult) (timestamp : Int)
    (wakeup_at : Option Int) : Option Int :=
  match wakeups with
  | [] => wakeup_at
  | w :: rest =>
    match w with
    | .wakeAt this_at =>
      if this_at ≤ timestamp then
        execute_wakeups_loop rest timestamp wakeup_at
      else
        execute_wakeups_loop rest timestamp (optMinStep wakeup_at this_at)
    | .noWakeup => execute_wakeups_loop rest timestamp wakeup_at
    | .transientError => execute_wakeups_loop rest timestamp wakeup_at

/-- The function `execute_wakeups(wakeups, timestamp, logger)` from the source. -/
def execute_wakeups (wakeups : List WakeResult) (timestamp : Int) :
    Option Int :=
  execute_wakeups_loop wakeups timestamp none

/-- The instants that `execute_wakeups` treats as valid candidates: those
returned by a non-failing check and strictly greater than the query
instant. -/
def validCandidates (wakeups : List WakeResult) (timestamp : Int) :
    List Int :=
  wakeups.filterMap fun w =>
    match w with
    | .wakeAt v => if timestamp < v then some v else none
    | .noWakeup => none
    | .transientError => none

/-- A wakeup-check outcome that `execute_wakeups` skips entirely: a `None`
result, a raised `TemporaryCheckError`, or an instant at or before the
query instant. -/
def skippedWake (timestamp : Int) : WakeResult → Prop
  | .wakeAt v => v ≤ timestamp
  | .noWakeup => True
  | .transientError => True

/-- The configuration values held by a `Processor` instance. -/
structure ProcessorConfig where
  idle_time : Int
  min_sleep_time : Int
  wakeup_delta : Int
  all_activities : Bool
  deriving DecidableEq, Repr

/-- The calls a `Processor.iteration` tick makes, in program order:
`_reset_state` (setting `_idle_since = None`), `_wakeup_fn(wakeup_at)`
(the wakeup-scheduling action) and `_sleep_fn(wakeup_at)` (the
notify-then-suspend action). -/
inductive PEvent where
  | reset
  | wakeup_fn (t : Int)
  | sleep_fn (wakeup_at : Option Int)
  deriving DecidableEq, Repr

/-- Everything one call of `Processor.iteration` does: the value of
`_idle_since` afterwards, the ordered calls it made, and which probes it
invoked (both aggregations run before any branch, at the top of the
method). -/
structure IterResult where
  idle_since : Option Int
  events : List PEvent
  invoked_activities : List ActivityResult
  invoked_wakeups : List WakeResult
  deriving DecidableEq, Repr

/-- The method `Processor.iteration(timestamp, just_woke_up)` from the source, as a
function of the prior `_idle_since` and of the outcomes of this tick's
probe invocations.  Both aggregations run first; `wakeup_delta` is then
subtracted from a non-null aggregate; the `just_woke_up` and `active`
branches reset and return; otherwise a null `_idle_since` is set to
`timestamp`, the strict idle-time threshold is tested, then the
minimum-sleep guard, and finally wakeup scheduling, reset and suspend. -/
def iteration (cfg : ProcessorConfig) (idle_since : Option Int)
    (activities : List ActivityResult) (wakeups : List WakeResult)
    (timestamp : Int) (just_woke_up : Bool) : IterResult :=
  let active := execute_checks activities cfg.all_activities
  let inv_act := execute_checks_invoked activities cfg.all_activities
  let wakeup_at_raw := execute_wakeups wakeups timestamp
  let wakeup_at := wakeup_at_raw.map (fun w => w - cfg.wakeup_delta)
  if just_woke_up then
    { idle_since := none, events := [.reset],
      invoked_activities := inv_act, invoked_wakeups := wakeups }
  else if active then
    { idle_since := none, events := [.reset],
      invoked_activities := inv_act, invoked_wakeups := wakeups }
  else
    let idle_since' := idle_since.getD timestamp
    if timestamp - idle_since' > cfg.idle_time then
      match wakeup_at with
      | some w =>
        if w - timestamp < cfg.min_sleep_time then
          { idle_since := some idle_since', events := [],
            invoked_activities := inv_act, invoked_wakeups := wakeups }
        else
          { idle_since := none,
            events := [.wakeup_fn w, .reset, .sleep_fn (some w)],
            invoked_activities := inv_act, invoked_wakeups := wakeups }
      | none =>
        { idle_since := none, events := [.reset, .sleep_fn none],
          invoked_activities := inv_act, invoked_wakeups := wakeups }
    else
      { idle_since := some idle_since', events := [],
        invoked_activities := inv_act, invoked_wakeups := wakeups }

/-- Whether a tick dispatched the suspend action (`_sleep_fn` was
called). -/
def dispatchedSuspend (events : List PEvent) : Bool :=
  events.any fun e =>
    match e with
    | .sleep_fn _ => true
    | _ => false

/-! ### Action dispatchers

`execute_suspend`, `notify_suspend`, `notify_and_suspend` and
`schedule_wakeup` run external commands through
`subprocess.check_call(command, shell=True)` and catch
`CalledProcessError`.  The executor is an environment
`env : String → Bool` giving each command's success; a command whose
`env` value is false makes `check_call` raise. -/

/-- The exception `subprocess.check_call` raises on a non-zero exit. -/
inductive CalledProcessError where
  | mk
  deriving DecidableEq, Repr

/-- One executed external command, with whether it exited successfully. -/
structure CmdCall where
  cmd : String
  ok : Bool
  deriving DecidableEq, Repr

/-- The call `subprocess.check_call(command, shell=True)`: raises
`CalledProcessError` when the command fails. -/
def check_call (env : String → Bool) (command : String) :
    Except CalledProcessError Unit :=
  if env command then .ok () else .error .mk

/-- The command strings of the Processor's configured dispatchers. -/
structure CommandConfig where
  suspend_cmd : String
  notify_cmd_wakeup : Option String
  notify_cmd_no_wakeup : Option String
  wakeup_cmd : String

/-- Python truthiness of an optional command string: `None` and the empty
string are falsy. -/
def strTruthy : Option String → Bool
  | none => false
  | some s => !s.isEmpty

/-- The substitution `template.format(timestamp=..., iso=...)`: substitutes the wakeup
instant into the command template.  The ISO rendering of the instant is
abstracted to its numeric form; no claim depends on the rendering. -/
def format_command (template : String) (wakeup_at : Int) : String :=
  (template.replace "\x7btimestamp\x7d" (toString wakeup_at)).replace
    "\x7biso\x7d" (toString wakeup_at)

/-- The function `execute_suspend(command, wakeup_at)`: runs the suspend command and
catches `CalledProcessError`, logging a warning.  The result is the list
of commands executed; no exception escapes. -/
def execute_suspend (env : String → Bool) (command : String) :
    Except CalledProcessError (List CmdCall) :=
  match check_call env command with
  | .ok _ => .ok [⟨command, true⟩]
  | .error _ => .ok [⟨command, false⟩]

/-- The inner `safe_exec` of `notify_suspend`: run the command, catch
`CalledProcessError`. -/
def safe_exec (env : String → Bool) (command : String) :
    Except CalledProcessError (List CmdCall) :=
  match check_call env command with
  | .ok _ => .ok [⟨command, true⟩]
  | .error _ => .ok [⟨command, false⟩]

/-- The function `notify_suspend(command_wakeup_template, command_no_wakeup,
wakeup_at)`: formats and runs the wakeup notification template when a
wakeup instant is present and the template is truthy; runs the no-wakeup
command when no instant is present and that command is truthy; otherwise
only logs. -/
def notify_suspend (env : String → Bool)
    (command_wakeup_template command_no_wakeup : Option String)
    (wakeup_at : Option Int) : Except CalledProcessError (List CmdCall) :=
  match wakeup_at with
  | some w =>
    if strTruthy command_wakeup_template then
      safe_exec env (format_command (command_wakeup_template.getD "") w)
    else .ok []
  | none =>
    if strTruthy command_no_wakeup then
      safe_exec env (command_no_wakeup.getD "")
    else .ok []

/-- The function `notify_and_suspend(...)`: notify, then unconditionally suspend. -/
def notify_and_suspend (env : String → Bool) (ccfg : CommandConfig)
    (wakeup_at : Option Int) : Except CalledProcessError (List CmdCall) := do
  let a ← notify_suspend env ccfg.notify_cmd_wakeup ccfg.notify_cmd_no_wakeup
    wakeup_at
  let b ← execute_suspend env ccfg.suspend_cmd
  return a ++ b

/-- The function `schedule_wakeup(command_template, wakeup_at)`: formats and runs the
wakeup-scheduling command, catching `CalledProcessError`. -/
def schedule_wakeup (env : String → Bool) (command_template : String)
    (wakeup_at : Int) : Except CalledProcessError (List CmdCall) :=
  match check_call env (format_command command_template wakeup_at) with
  | .ok _ => .ok [⟨format_command command_template wakeup_at, true⟩]
  | .error _ => .ok [⟨format_command command_template wakeup_at, false⟩]

/-- Interpretation of one `Processor` dispatch: `_wakeup_fn` is
`schedule_wakeup` and `_sleep_fn` is `notify_and_suspend`, as wired up in
`main`; `_reset_state` runs no external command. -/
def runEvent (env : String → Bool) (ccfg : CommandConfig) :
    PEvent → Except CalledProcessError (List CmdCall)
  | .reset => .ok []
  | .wakeup_fn t => schedule_wakeup env ccfg.wakeup_cmd t
  | .sleep_fn w => notify_and_suspend env ccfg w

/-- Sequential execution of a tick's dispatches, in order; an uncaught
exception from one dispatch would abort the rest. -/
def runEvents (env : String → Bool) (ccfg : CommandConfig) :
    List PEvent → Except CalledProcessError (List CmdCall)
  | [] => .ok []
  | e :: rest => do
    let tr ← runEvent env ccfg e
    let ts ← runEvents env ccfg rest
    return tr ++ ts

/-- A full tick including its external command executions: the decision
of `iteration` followed by the dispatches it ordered. -/
def iterationRun (cfg : ProcessorConfig) (ccfg : CommandConfig)
    (env : String → Bool) (idle_since : Option Int)
    (activities : List ActivityResult) (wakeups : List WakeResult)
    (timestamp : Int) (just_woke_up : Bool) :
    Except CalledProcessError (Option Int × List CmdCall) := do
  let r := iteration cfg idle_since activities wakeups timestamp just_woke_up
  let traces ← runEvents env ccfg r.events
  return (r.idle_since, traces)

/-! ### Helper lemmas -/

theorem execute_checks_loop_eq (checks : List ActivityResult)
    (all_checks m : Bool) :
    execute_checks_loop checks all_checks m = (m || checks.any checkMatched) := by
  induction checks generalizing m with
  | nil => simp [execute_checks_loop]
  | cons c rest ih =>
    cases c with
    | reason s =>
      cases all_checks with
      | false => simp [execute_checks_loop, checkMatched]
      | true => simp [execute_checks_loop, checkMatched, ih]
    | noActivity => simp [execute_checks_loop, checkMatched, ih]
    | transientError => simp [execute_checks_loop, checkMatched, ih]

theorem execute_checks_eq_any (checks : List ActivityResult)
    (all_checks : Bool) :
    execute_checks checks all_checks = checks.any checkMatched := by
  simp [execute_checks, execute_checks_loop_eq]

theorem execute_checks_invoked_eq (checks : List ActivityResult) :
    execute_checks_invoked checks false
      = checks.takeWhile (fun c => !checkMatched c)
        ++ (checks.dropWhile (fun c => !checkMatched c)).take 1 := by
  induction checks with
  | nil => simp [execute_checks_invoked]
  | cons c rest ih =>
    cases c with
    | reason s =>
      simp [execute_checks_invoked, List.takeWhile, List.dropWhile,
        checkMatched]
    | noActivity =>
      simp [execute_checks_invoked, List.takeWhile, List.dropWhile,
        checkMatched, ih]
    | transientError =>
      simp [execute_checks_invoked, List.takeWhile, List.dropWhile,
        checkMatched, ih]

theorem execute_checks_invoked_all (checks : List ActivityResult) :
    execute_checks_invoked checks true = checks := by
  induction checks with
  | nil => rfl
  | cons c rest ih => cases c <;> simp [execute_checks_invoked, ih]

theorem execute_wakeups_loop_eq (ws : List WakeResult) (ts : Int)
    (acc : Option Int) :
    execute_wakeups_loop ws ts acc
      = (validCandidates ws ts).foldl optMinStep acc := by
  induction ws generalizing acc with
  | nil => simp [execute_wakeups_loop, validCandidates]
  | cons w rest ih =>
    cases w with
    | wakeAt v =>
      rcases le_or_lt v ts with h | h
      · simp [execute_wakeups_loop, validCandidates, h, not_lt.mpr h, ih,
          List.filterMap_cons]
      · simp [execute_wakeups_loop, validCandidates, h, not_le.mpr h, ih,
          List.filterMap_cons]
    | noWakeup =>
      simp [execute_wakeups_loop, validCandidates, ih, List.filterMap_cons]
    | transientError =>
      simp [execute_wakeups_loop, validCandidates, ih, List.filterMap_cons]

theorem foldl_optMinStep_some (l : List Int) (a : Int) :
    ∃ m, l.foldl optMinStep (some a) = some m ∧ (m = a ∨ m ∈ l) ∧ m ≤ a
      ∧ ∀ v ∈ l, m ≤ v := by
  induction l generalizing a with
  | nil => exact ⟨a, rfl, Or.inl rfl, le_refl a, by simp⟩
  | cons v rest ih =>
    obtain ⟨m, hm, hmem, hle, hall⟩ := ih (min v a)
    refine ⟨m, ?_, ?_, ?_, ?_⟩
    · simpa [optMinStep] using hm
    · rcases hmem with h | h
      · rcases min_choice v a with hc | hc
        · exact Or.inr (by simp [h, hc])
        · exact Or.inl (by rw [h, hc])
      · exact Or.inr (List.mem_cons_of_mem v h)
    · exact hle.trans (min_le_right v a)
    · intro u hu
      rcases List.mem_cons.mp hu with h | h
      · exact h ▸ hle.trans (min_le_left v a)
      · exact hall u h

theorem foldl_optMinStep_none_iff (l : List Int) :
    l.foldl optMinStep none = none ↔ l = [] := by
  cases l with
  | nil => simp
  | cons v rest =>
    obtain ⟨m, hm, -, -, -⟩ := foldl_optMinStep_some rest v
    simp [optMinStep, hm]

theorem safe_exec_ok (env : String → Bool) (c : String) :
    safe_exec env c = .ok [⟨c, env c⟩] := by
  unfold safe_exec check_call
  cases h : env c <;> simp

theorem execute_suspend_ok (env : String → Bool) (c : String) :
    execute_suspend env c = .ok [⟨c, env c⟩] := by
  unfold execute_suspend check_call
  cases h : env c <;> simp

theorem schedule_wakeup_ok (env : String → Bool) (ct : String) (t : Int) :
    schedule_wakeup env ct t
      = .ok [⟨format_command ct t, env (format_command ct t)⟩] := by
  unfold schedule_wakeup check_call
  cases h : env (format_command ct t) <;> simp

theorem notify_suspend_ok (env : String → Bool)
    (cwt cnw : Option String) (w : Option Int) :
    ∃ a, notify_suspend env cwt cnw w = .ok a := by
  cases w with
  | some w' =>
    by_cases h : strTruthy cwt = true
    · refine ⟨[⟨format_command (cwt.getD "") w',
        env (format_command (cwt.getD "") w')⟩], ?_⟩
      simp [notify_suspend, h, safe_exec_ok]
    · exact ⟨[], by simp [notify_suspend, h]⟩
  | none =>
    by_cases h : strTruthy cnw = true
    · refine ⟨[⟨cnw.getD "", env (cnw.getD "")⟩], ?_⟩
      simp [notify_suspend, h, safe_exec_ok]
    · exact ⟨[], by simp [notify_suspend, h]⟩

theorem notify_and_suspend_ok (env : String → Bool) (ccfg : CommandConfig)
    (w : Option Int) :
    ∃ pre, notify_and_suspend env ccfg w
      = .ok (pre ++ [⟨ccfg.suspend_cmd, env ccfg.suspend_cmd⟩]) := by
  obtain ⟨a, ha⟩ := notify_suspend_ok env ccfg.notify_cmd_wakeup
    ccfg.notify_cmd_no_wakeup w
  refine ⟨a, ?_⟩
  unfold notify_and_suspend
  rw [ha, execute_suspend_ok]
  rfl

theorem runEvent_ok (env : String → Bool) (ccfg : CommandConfig)
    (e : PEvent) : ∃ tr, runEvent env ccfg e = .ok tr := by
  cases e with
  | reset => exact ⟨[], rfl⟩
  | wakeup_fn t => exact ⟨_, schedule_wakeup_ok env ccfg.wakeup_cmd t⟩
  | sleep_fn w =>
    obtain ⟨pre, hp⟩ := notify_and_suspend_ok env ccfg w
    exact ⟨_, hp⟩

theorem runEvents_ok (env : String → Bool) (ccfg : CommandConfig)
    (l : List PEvent) : ∃ ts, runEvents env ccfg l = .ok ts := by
  induction l with
  | nil => exact ⟨[], rfl⟩
  | cons e rest ih =>
    obtain ⟨tr, htr⟩ := runEvent_ok env ccfg e
    obtain ⟨ts, hts⟩ := ih
    refine ⟨tr ++ ts, ?_⟩
    unfold runEvents
    rw [htr, hts]
    rfl

theorem iteration_keeps_idle_since (cfg : ProcessorConfig)
    (idle_since : Option Int) (activities : List ActivityResult)
    (wakeups : List WakeResult) (timestamp : Int)
    (hactive : execute_checks activities cfg.all_activities = false)
    (hnos : dispatchedSuspend
      (iteration cfg idle_since activities wakeups timestamp false).events
        = false) :
    (iteration cfg idle_since activities wakeups timestamp false).idle_since
      = some (idle_since.getD timestamp) := by
  unfold iteration at hnos ⊢
  simp only [hactive, Bool.false_eq_true, if_false, Option.map_eq_map] at hnos ⊢
  cases hw : execute_wakeups wakeups timestamp with
  | none =>
    rw [hw] at hnos
    simp only [Option.map_none'] at hnos ⊢
    split_ifs at hnos ⊢ with hth
    · simp [dispatchedSuspend] at hnos
    · rfl
  | some raw =>
    rw [hw] at hnos
    simp only [Option.map_some'] at hnos ⊢
    split_ifs at hnos ⊢ with hth hms
    · rfl
    · simp [dispatchedSuspend] at hnos
    · rfl

/-! ### Claim theorems -/

/-- C1: Activity aggregation (`execute_checks`) is a logical OR over
probes: it returns true iff some probe that does not fail transiently
returns a non-null reason; a probe raising a `TemporaryCheckError`
contributes no activity and does not abort the remaining probes; and when
`all_checks` is false, iteration stops at the first probe that signals
activity — the probes invoked are exactly the non-matching prefix plus
the first matching probe, so probes after it are never invoked. -/
theorem execute_checks_logical_or :
    (∀ (checks : List ActivityResult) (all_checks : Bool),
      execute_checks checks all_checks = checks.any checkMatched)
    ∧ (∀ (rest : List ActivityResult) (all_checks : Bool),
      execute_checks (ActivityResult.transientError :: rest) all_checks
        = execute_checks rest all_checks)
    ∧ (∀ checks : List ActivityResult,
      execute_checks_invoked checks false
        = checks.takeWhile (fun c => !checkMatched c)
          ++ (checks.dropWhile (fun c => !checkMatched c)).take 1) := by
  refine ⟨execute_checks_eq_any, fun rest all_checks => ?_,
    execute_checks_invoked_eq⟩
  simp [execute_checks_eq_any, checkMatched]

/-- C2: Wake-up aggregation (`execute_wakeups`) returns the minimum over
valid candidates: it is `none` exactly when no non-failing probe returns
an instant strictly greater than the query instant; when it returns
`some m`, `m` is such a candidate and is a lower bound of all of them;
and a probe returning `None`, raising a `TemporaryCheckError`, or
returning an instant at or before the query instant is excluded entirely
and never influences the result. -/
theorem execute_wakeups_logical_min :
    ∀ (wakeups : List WakeResult) (timestamp : Int),
      (execute_wakeups wakeups timestamp = none
        ↔ validCandidates wakeups timestamp = [])
      ∧ (∀ m, execute_wakeups wakeups timestamp = some m →
          m ∈ validCandidates wakeups timestamp
          ∧ ∀ v ∈ validCandidates wakeups timestamp, m ≤ v)
      ∧ (∀ (pre post : List WakeResult) (w : WakeResult),
          skippedWake timestamp w →
          execute_wakeups (pre ++ w :: post) timestamp
            = execute_wakeups (pre ++ post) timestamp) := by
  intro wakeups timestamp
  refine ⟨?_, ?_, ?_⟩
  · rw [execute_wakeups, execute_wakeups_loop_eq]
    exact foldl_optMinStep_none_iff _
  · intro m hm
    rw [execute_wakeups, execute_wakeups_loop_eq] at hm
    cases hvc : validCandidates wakeups timestamp with
    | nil => rw [hvc] at hm; simp at hm
    | cons v rest =>
      rw [hvc] at hm
      obtain ⟨m', hm', hmem, hle, hall⟩ := foldl_optMinStep_some rest v
      rw [List.foldl_cons] at hm
      simp only [optMinStep] at hm
      rw [hm'] at hm
      obtain rfl : m' = m := Option.some_injective _ hm
      constructor
      · rcases hmem with h | h
        · simp [h]
        · exact List.mem_cons_of_mem v h
      · intro u hu
        rcases List.mem_cons.mp hu with h | h
        · exact h ▸ hle
        · exact hall u h
  · intro pre post w hw
    rw [execute_wakeups, execute_wakeups, execute_wakeups_loop_eq,
      execute_wakeups_loop_eq]
    have hvc : validCandidates (pre ++ w :: post) timestamp
        = validCandidates (pre ++ post) timestamp := by
      cases w with
      | wakeAt v =>
        have hv : ¬ timestamp < v := not_lt.mpr hw
        simp [validCandidates, List.filterMap_append, List.filterMap_cons, hv]
      | noWakeup =>
        simp [validCandidates, List.filterMap_append, List.filterMap_cons]
      | transientError =>
        simp [validCandidates, List.filterMap_append, List.filterMap_cons]
    rw [hvc]

/-- C3: the idle threshold is strict.  On a tick with `just_woke_up`
false and no activity, when the elapsed idle time is at most `idle_time`
(in particular when it equals it exactly) no suspend, notification or
wake-scheduling call is made and `_idle_since` is unchanged (or, when it
was null, anchored at this tick's instant). -/
theorem iteration_strict_idle_threshold (cfg : ProcessorConfig)
    (idle_since : Option Int) (activities : List ActivityResult)
    (wakeups : List WakeResult) (timestamp : Int)
    (hactive : execute_checks activities cfg.all_activities = false)
    (hth : timestamp - idle_since.getD timestamp ≤ cfg.idle_time) :
    (iteration cfg idle_since activities wakeups timestamp false).events = []
    ∧ (iteration cfg idle_since activities wakeups timestamp
        false).idle_since = some (idle_since.getD timestamp) := by
  unfold iteration
  simp [hactive, not_lt.mpr hth]

/-- Concrete instantiation of `iteration_strict_idle_threshold` at the
boundary: elapsed idle time 300 equals `idle_time` 300 exactly, so the
tick makes no call and keeps `_idle_since = 0`. -/
theorem iteration_strict_idle_threshold_witness :
    execute_checks [] false = false
    ∧ (300 : Int) - (some (0 : Int)).getD 300 ≤ (300 : Int)
    ∧ ((iteration ⟨300, 1200, 30, false⟩ (some 0) [] [] 300 false).events
        = []
      ∧ (iteration ⟨300, 1200, 30, false⟩ (some 0) [] [] 300
          false).idle_since = some ((some (0 : Int)).getD 300)) :=
  ⟨by decide, by decide,
    iteration_strict_idle_threshold ⟨300, 1200, 30, false⟩ (some 0) [] []
      300 (by decide) (by decide)⟩

/-- C4: minimum-sleep guard.  On a tick that reaches the idle threshold
with a delta-adjusted wakeup instant `r` with `r - timestamp` below
`min_sleep_time`, no suspend and no wake-scheduling call is made and
`_idle_since` is left exactly as it was, so idle time keeps accumulating
from the original anchor. -/
theorem iteration_min_sleep_guard (cfg : ProcessorConfig) (s : Int)
    (activities : List ActivityResult) (wakeups : List WakeResult)
    (timestamp r : Int)
    (hactive : execute_checks activities cfg.all_activities = false)
    (hw : (execute_wakeups wakeups timestamp).map
      (fun x => x - cfg.wakeup_delta) = some r)
    (hth : timestamp - s > cfg.idle_time)
    (hms : r - timestamp < cfg.min_sleep_time) :
    (iteration cfg (some s) activities wakeups timestamp false).events = []
    ∧ (iteration cfg (some s) activities wakeups timestamp
        false).idle_since = some s := by
  unfold iteration
  simp [hactive, hw, hth, hms]

/-- Concrete instantiation of `iteration_min_sleep_guard`, the spec's
example: wakeup due 500 seconds after the current instant with
`min_sleep_time = 1200`; the tick makes no call and `_idle_since` stays
at 0. -/
theorem iteration_min_sleep_guard_witness :
    execute_checks [] false = false
    ∧ (execute_wakeups [WakeResult.wakeAt 831] 301).map
        (fun x => x - (30 : Int)) = some 801
    ∧ (301 : Int) - 0 > 300
    ∧ (801 : Int) - 301 < 1200
    ∧ ((iteration ⟨300, 1200, 30, false⟩ (some 0) []
        [WakeResult.wakeAt 831] 301 false).events = []
      ∧ (iteration ⟨300, 1200, 30, false⟩ (some 0) []
          [WakeResult.wakeAt 831] 301 false).idle_since = some 0) :=
  ⟨by decide, by decide, by decide, by decide,
    iteration_min_sleep_guard ⟨300, 1200, 30, false⟩ 0 []
      [WakeResult.wakeAt 831] 301 801 (by decide) (by decide) (by decide)
      (by decide)⟩

/-- C5: idle anchoring.  Over any run of ticks at `t1 < t2 < t3` in which
no tick reports activity, has `just_woke_up`, or dispatches a suspend,
`_idle_since` is anchored at `t1` by the first tick and left untouched by
the later ones; and after any single tick, `_idle_since` is non-null
exactly when the tick had `just_woke_up` false, observed no activity and
dispatched no suspend. -/
theorem idle_since_anchoring :
    (∀ (cfg : ProcessorConfig) (a1 a2 a3 : List ActivityResult)
        (w1 w2 w3 : List WakeResult) (t1 t2 t3 : Int)
        (r1 r2 r3 : IterResult),
      t1 < t2 → t2 < t3 →
      execute_checks a1 cfg.all_activities = false →
      execute_checks a2 cfg.all_activities = false →
      execute_checks a3 cfg.all_activities = false →
      r1 = iteration cfg none a1 w1 t1 false →
      r2 = iteration cfg r1.idle_since a2 w2 t2 false →
      r3 = iteration cfg r2.idle_since a3 w3 t3 false →
      dispatchedSuspend r1.events = false →
      dispatchedSuspend r2.events = false →
      dispatchedSuspend r3.events = false →
      r1.idle_since = some t1 ∧ r2.idle_since = some t1
        ∧ r3.idle_since = some t1)
    ∧ (∀ (cfg : ProcessorConfig) (idle_since : Option Int)
        (activities : List ActivityResult) (wakeups : List WakeResult)
        (timestamp : Int) (just_woke_up : Bool),
      (iteration cfg idle_since activities wakeups timestamp
          just_woke_up).idle_since.isSome = true
        ↔ (just_woke_up = false
          ∧ execute_checks activities cfg.all_activities = false
          ∧ dispatchedSuspend (iteration cfg idle_since activities wakeups
              timestamp just_woke_up).events = false)) := by
  constructor
  · intro cfg a1 a2 a3 w1 w2 w3 t1 t2 t3 r1 r2 r3 _ _ h1 h2 h3 e1 e2 e3
      d1 d2 d3
    have k1 : r1.idle_since = some t1 := by
      rw [e1] at d1 ⊢
      simpa using iteration_keeps_idle_since cfg none a1 w1 t1 h1 d1
    have k2 : r2.idle_since = some t1 := by
      rw [e2, k1] at d2 ⊢
      simpa using iteration_keeps_idle_since cfg (some t1) a2 w2 t2 h2 d2
    have k3 : r3.idle_since = some t1 := by
      rw [e3, k2] at d3 ⊢
      simpa using iteration_keeps_idle_since cfg (some t1) a3 w3 t3 h3 d3
    exact ⟨k1, k2, k3⟩
  · intro cfg idle_since activities wakeups timestamp just_woke_up
    cases just_woke_up with
    | true => simp [iteration]
    | false =>
      cases hactive : execute_checks activities cfg.all_activities with
      | true => simp [iteration, hactive]
      | false =>
        unfold iteration
        simp only [hactive, Bool.false_eq_true, if_false]
        cases hw : execute_wakeups wakeups timestamp with
        | none =>
          simp only [Option.map_none']
          split_ifs with hth
          · simp [dispatchedSuspend]
          · simp [dispatchedSuspend]
        | some raw =>
          simp only [Option.map_some']
          split_ifs with hth hms
          · simp [dispatchedSuspend]
          · simp [dispatchedSuspend]
          · simp [dispatchedSuspend]

/-- Concrete instantiation of `idle_since_anchoring`: three quiet ticks
at 10, 20 and 30 starting from the `Active` state anchor `_idle_since`
at 10 and keep it there. -/
theorem idle_since_anchoring_witness :
    ((10 : Int) < 20 ∧ (20 : Int) < 30)
    ∧ execute_checks [] false = false
    ∧ dispatchedSuspend
        (iteration ⟨300, 1200, 30, false⟩ none [] [] 10 false).events
      = false
    ∧ ((iteration ⟨300, 1200, 30, false⟩ none [] [] 10 false).idle_since
        = some 10
      ∧ (iteration ⟨300, 1200, 30, false⟩
          (iteration ⟨300, 1200, 30, false⟩ none [] [] 10
            false).idle_since [] [] 20 false).idle_since = some 10
      ∧ (iteration ⟨300, 1200, 30, false⟩
          (iteration ⟨300, 1200, 30, false⟩
            (iteration ⟨300, 1200, 30, false⟩ none [] [] 10
              false).idle_since [] [] 20 false).idle_since [] [] 30
          false).idle_since = some 10) :=
  ⟨⟨by decide, by decide⟩, by decide, by decide,
    idle_since_anchoring.1 ⟨300, 1200, 30, false⟩ [] [] [] [] [] []
      10 20 30 _ _ _ (by decide) (by decide) (by decide) (by decide)
      (by decide) rfl rfl rfl (by decide) (by decide) (by decide)⟩

/-- C6: reset on wake is unconditional and idempotent.  Whatever the
prior `_idle_since`, the probe outcomes and the instant, a tick with
`just_woke_up = true` ends with `_idle_since = None` and makes only the
`_reset_state` call: no suspend, notification or wake-scheduling action
is dispatched. -/
theorem iteration_reset_on_wake (cfg : ProcessorConfig)
    (idle_since : Option Int) (activities : List ActivityResult)
    (wakeups : List WakeResult) (timestamp : Int) :
    (iteration cfg idle_since activities wakeups timestamp
        true).idle_since = none
    ∧ (iteration cfg idle_since activities wakeups timestamp true).events
      = [PEvent.reset] :=
  ⟨rfl, rfl⟩
theorem execute_wakeups_logical_min_witness :
    (execute_wakeups [WakeResult.wakeAt 300, WakeResult.transientError,
        WakeResult.noWakeup, WakeResult.wakeAt 50, WakeResult.wakeAt 200] 100
      = some 200)
    ∧ (50 : Int) ≤ 100
    ∧ execute_wakeups ([WakeResult.wakeAt 300, WakeResult.transientError,
        WakeResult.noWakeup] ++ WakeResult.wakeAt 50 ::
        [WakeResult.wakeAt 200]) 100
      = execute_wakeups ([WakeResult.wakeAt 300, WakeResult.transientError,
        WakeResult.noWakeup] ++ [WakeResult.wakeAt 200]) 100 := by
  refine ⟨by decide, by decide, ?_⟩
  exact (execute_wakeups_logical_min [WakeResult.wakeAt 300,
    WakeResult.transientError, WakeResult.noWakeup, WakeResult.wakeAt 50,
    WakeResult.wakeAt 200] 100).2.2 [WakeResult.wakeAt 300,
    WakeResult.transientError, WakeResult.noWakeup] [WakeResult.wakeAt 200]
    (WakeResult.wakeAt 50) (show (50 : Int) ≤ 100 by decide)

/-- C7 counterexample: on a concrete suspend tick the call order is
`_wakeup_fn`, then `_reset_state`, then `_sleep_fn`: the state reset
happens strictly before the suspend action is dispatched, not
immediately after it as the claim states. -/
theorem suspend_order_counterexample :
    (iteration ⟨10, 50, 30, false⟩ (some 0) [] [WakeResult.wakeAt 1000]
        100 false).events
      = [PEvent.wakeup_fn 970, PEvent.reset, PEvent.sleep_fn (some 970)]
    ∧ List.indexOf PEvent.reset
        (iteration ⟨10, 50, 30, false⟩ (some 0) [] [WakeResult.wakeAt 1000]
          100 false).events
      < List.indexOf (PEvent.sleep_fn (some 970))
        (iteration ⟨10, 50, 30, false⟩ (some 0) [] [WakeResult.wakeAt 1000]
          100 false).events := by
  constructor <;> decide

/-- C7 (amended): on every tick that decides to suspend with a wake-up
instant present, the wake-scheduling call is dispatched first, then the
state is reset to `Active` (`_idle_since = None`), and then the
notify-then-suspend call is dispatched — so the reset precedes the
suspend dispatch and does not wait for the physical suspend; and inside
the notify-then-suspend dispatch the notification command always runs
before the suspend command, which is executed last. -/
theorem suspend_dispatch_order (cfg : ProcessorConfig) (s : Int)
    (activities : List ActivityResult) (wakeups : List WakeResult)
    (timestamp r : Int)
    (hactive : execute_checks activities cfg.all_activities = false)
    (hraw : execute_wakeups wakeups timestamp = some r)
    (hth : timestamp - s > cfg.idle_time)
    (hms : ¬(r - cfg.wakeup_delta - timestamp < cfg.min_sleep_time)) :
    (iteration cfg (some s) activities wakeups timestamp false).events
      = [PEvent.wakeup_fn (r - cfg.wakeup_delta), PEvent.reset,
        PEvent.sleep_fn (some (r - cfg.wakeup_delta))]
    ∧ (iteration cfg (some s) activities wakeups timestamp
        false).idle_since = none
    ∧ (∀ (env : String → Bool) (ccfg : CommandConfig) (w : Option Int),
        ∃ pre, notify_and_suspend env ccfg w
          = .ok (pre ++ [⟨ccfg.suspend_cmd, env ccfg.suspend_cmd⟩])) := by
  refine ⟨?_, ?_, fun env ccfg w => notify_and_suspend_ok env ccfg w⟩
  all_goals
    unfold iteration
    simp [hactive, hraw, hth, hms]

/-- Concrete instantiation of `suspend_dispatch_order`: idle since 0,
tick at 100 with `idle_time = 10`, raw wakeup 1000 adjusted to 970,
`min_sleep_time = 50`. -/
theorem suspend_dispatch_order_witness :
    execute_checks [] false = false
    ∧ execute_wakeups [WakeResult.wakeAt 1000] 100 = some 1000
    ∧ (100 : Int) - 0 > 10
    ∧ ¬((1000 : Int) - 30 - 100 < 50)
    ∧ ((iteration ⟨10, 50, 30, false⟩ (some 0) []
        [WakeResult.wakeAt 1000] 100 false).events
        = [PEvent.wakeup_fn (1000 - 30), PEvent.reset,
          PEvent.sleep_fn (some (1000 - 30))]
      ∧ (iteration ⟨10, 50, 30, false⟩ (some 0) []
          [WakeResult.wakeAt 1000] 100 false).idle_since = none
      ∧ (∀ (env : String → Bool) (ccfg : CommandConfig) (w : Option Int),
          ∃ pre, notify_and_suspend env ccfg w
            = .ok (pre ++ [⟨ccfg.suspend_cmd, env ccfg.suspend_cmd⟩]))) :=
  ⟨by decide, by decide, by decide, by decide,
    suspend_dispatch_order ⟨10, 50, 30, false⟩ 0 []
      [WakeResult.wakeAt 1000] 100 1000 (by decide) (by decide)
      (by decide) (by decide)⟩

/-- C8 counterexample: on a tick with `just_woke_up = true` the probes
are still invoked — both aggregations run before the `just_woke_up`
branch — refuting the claim that no activity probe and no wake probe is
invoked on the tick immediately following a resume. -/
theorem just_woke_up_probes_counterexample :
    (iteration ⟨300, 1200, 30, false⟩ (some 5)
        [ActivityResult.noActivity] [WakeResult.noWakeup] 100
        true).invoked_activities = [ActivityResult.noActivity]
    ∧ (iteration ⟨300, 1200, 30, false⟩ (some 5)
        [ActivityResult.noActivity] [WakeResult.noWakeup] 100
        true).invoked_wakeups = [WakeResult.noWakeup] :=
  ⟨rfl, rfl⟩

/-- C8 (amended): on every tick with `just_woke_up = true`, activity and
wake-up aggregation do run first — every wake probe is invoked, and with
`all_activities` set every activity probe is invoked — and the tick then
terminates at the reset step: `_idle_since` becomes null and no suspend,
notification or wake-scheduling action is dispatched. -/
theorem just_woke_up_terminates_at_reset (cfg : ProcessorConfig)
    (idle_since : Option Int) (activities : List ActivityResult)
    (wakeups : List WakeResult) (timestamp : Int) :
    (iteration cfg idle_since activities wakeups timestamp
        true).invoked_wakeups = wakeups
    ∧ (cfg.all_activities = true →
      (iteration cfg idle_since activities wakeups timestamp
          true).invoked_activities = activities)
    ∧ (iteration cfg idle_since activities wakeups timestamp true).events
      = [PEvent.reset]
    ∧ (iteration cfg idle_since activities wakeups timestamp
        true).idle_since = none := by
  refine ⟨rfl, ?_, rfl, rfl⟩
  intro hall
  show execute_checks_invoked activities cfg.all_activities = activities
  rw [hall]
  exact execute_checks_invoked_all activities

/-- Concrete instantiation of `just_woke_up_terminates_at_reset` with
`all_activities = true`: both probes are invoked, the only call is
`_reset_state`, and `_idle_since` ends null. -/
theorem just_woke_up_terminates_at_reset_witness :
    (true = true)
    ∧ ((iteration ⟨300, 1200, 30, true⟩ (some 5)
        [ActivityResult.noActivity] [WakeResult.noWakeup] 100
        true).invoked_wakeups = [WakeResult.noWakeup]
      ∧ ((⟨300, 1200, 30, true⟩ : ProcessorConfig).all_activities = true →
        (iteration ⟨300, 1200, 30, true⟩ (some 5)
            [ActivityResult.noActivity] [WakeResult.noWakeup] 100
            true).invoked_activities = [ActivityResult.noActivity])
      ∧ (iteration ⟨300, 1200, 30, true⟩ (some 5)
          [ActivityResult.noActivity] [WakeResult.noWakeup] 100
          true).events = [PEvent.reset]
      ∧ (iteration ⟨300, 1200, 30, true⟩ (some 5)
          [ActivityResult.noActivity] [WakeResult.noWakeup] 100
          true).idle_since = none) :=
  ⟨rfl, just_woke_up_terminates_at_reset ⟨300, 1200, 30, true⟩ (some 5)
    [ActivityResult.noActivity] [WakeResult.noWakeup] 100⟩

/-- C9: external command failures are swallowed.  For every environment
of command outcomes: the notify-then-suspend dispatcher returns normally
(never propagates `CalledProcessError`) and its last executed command is
always the suspend command, so the suspend command still runs after a
failed notification; the wake-scheduling dispatcher returns normally;
and a full tick's result pairs the pure state-machine decision —
identical for every environment — with the executed commands, so command
failures never change the transition taken for that tick. -/
theorem command_failures_swallowed :
    (∀ (env : String → Bool) (ccfg : CommandConfig) (w : Option Int),
      ∃ tr, notify_and_suspend env ccfg w = .ok tr
        ∧ tr.getLast? = some ⟨ccfg.suspend_cmd, env ccfg.suspend_cmd⟩)
    ∧ (∀ (env : String → Bool) (ct : String) (t : Int),
      ∃ tr, schedule_wakeup env ct t = .ok tr)
    ∧ (∀ (cfg : ProcessorConfig) (ccfg : CommandConfig)
        (env : String → Bool) (idle_since : Option Int)
        (activities : List ActivityResult) (wakeups : List WakeResult)
        (timestamp : Int) (just_woke_up : Bool),
      ∃ tr, iterationRun cfg ccfg env idle_since activities wakeups
          timestamp just_woke_up
        = .ok ((iteration cfg idle_since activities wakeups timestamp
            just_woke_up).idle_since, tr)) := by
  refine ⟨?_, ?_, ?_⟩
  · intro env ccfg w
    obtain ⟨pre, hp⟩ := notify_and_suspend_ok env ccfg w
    exact ⟨_, hp, by simp⟩
  · intro env ct t
    exact ⟨_, schedule_wakeup_ok env ct t⟩
  · intro cfg ccfg env idle_since activities wakeups timestamp just_woke_up
    obtain ⟨ts, hts⟩ := runEvents_ok env ccfg
      (iteration cfg idle_since activities wakeups timestamp
        just_woke_up).events
    refine ⟨ts, ?_⟩
    show (do
      let traces ← runEvents env ccfg (iteration cfg idle_since activities
        wakeups timestamp just_woke_up).events
      pure ((iteration cfg idle_since activities wakeups timestamp
        just_woke_up).idle_since, traces) :
        Except CalledProcessError (Option Int × List CmdCall)) = _
    rw [hts]
    rfl

/-- C10 counterexample: with `min_sleep_time = 0` and the raw earliest
wakeup exactly `wakeup_delta` seconds after the current instant
(raw 1030, instant 1000, delta 30), the adjusted wakeup-in time is 0,
`0 < 0` is false, and the tick suspends and resets `_idle_since` instead
of skipping suspension with `_idle_since` preserved — refuting the
claim's "for every nonnegative minSleepTime". -/
theorem min_sleep_guard_counterexample :
    execute_wakeups [WakeResult.wakeAt 1030] 1000 = some 1030
    ∧ (1030 : Int) ≤ 1000 + 30
    ∧ (0 : Int) ≤ 0
    ∧ dispatchedSuspend (iteration ⟨10, 0, 30, false⟩ (some 0) []
        [WakeResult.wakeAt 1030] 1000 false).events = true
    ∧ (iteration ⟨10, 0, 30, false⟩ (some 0) [] [WakeResult.wakeAt 1030]
        1000 false).idle_since = none := by
  refine ⟨by decide, by decide, by decide, by decide, by decide⟩

/-- C10 (amended): the minimum-sleep comparison uses the delta-adjusted
instant — on a threshold-reaching tick with raw aggregate `r`, the
suspend action is dispatched iff `r - wakeup_delta - timestamp` is not
below `min_sleep_time`; and whenever the raw earliest wake-up lies
within `wakeup_delta` seconds of the current instant, the adjusted
instant is not in the future and, for every positive `min_sleep_time`,
the tick skips suspension with `_idle_since` preserved. -/
theorem min_sleep_uses_delta_adjusted (cfg : ProcessorConfig) (s : Int)
    (activities : List ActivityResult) (wakeups : List WakeResult)
    (timestamp r : Int)
    (hactive : execute_checks activities cfg.all_activities = false)
    (hraw : execute_wakeups wakeups timestamp = some r) :
    (timestamp - s > cfg.idle_time →
      (dispatchedSuspend (iteration cfg (some s) activities wakeups
          timestamp false).events = true
        ↔ ¬(r - cfg.wakeup_delta - timestamp < cfg.min_sleep_time)))
    ∧ (r ≤ timestamp + cfg.wakeup_delta → 0 < cfg.min_sleep_time →
      r - cfg.wakeup_delta ≤ timestamp
      ∧ (iteration cfg (some s) activities wakeups timestamp
          false).events = []
      ∧ (iteration cfg (some s) activities wakeups timestamp
          false).idle_since = some s) := by
  constructor
  · intro hth
    unfold iteration
    simp only [hactive, Bool.false_eq_true, if_false, hraw,
      Option.map_some', Option.getD_some]
    split_ifs with hms
    · simp [dispatchedSuspend, hms]
    · simp [dispatchedSuspend, hms]
  · intro hr hpos
    have hadj : r - cfg.wakeup_delta ≤ timestamp := by omega
    have hms : r - cfg.wakeup_delta - timestamp < cfg.min_sleep_time := by
      omega
    refine ⟨hadj, ?_⟩
    unfold iteration
    simp only [hactive, Bool.false_eq_true, if_false, hraw,
      Option.map_some', Option.getD_some]
    split_ifs with hth'
    · simp [hms]
    · simp

/-- Concrete instantiation of `min_sleep_uses_delta_adjusted`: raw
wakeup 1020 within delta 30 of instant 1000 and positive
`min_sleep_time = 5`; the tick makes no call and keeps
`_idle_since = 0`. -/
theorem min_sleep_uses_delta_adjusted_witness :
    execute_checks [] false = false
    ∧ execute_wakeups [WakeResult.wakeAt 1020] 1000 = some 1020
    ∧ (1020 : Int) ≤ 1000 + 30
    ∧ (0 : Int) < 5
    ∧ ((1020 : Int) - 30 ≤ 1000
      ∧ (iteration ⟨10, 5, 30, false⟩ (some 0) []
          [WakeResult.wakeAt 1020] 1000 false).events = []
      ∧ (iteration ⟨10, 5, 30, false⟩ (some 0) []
          [WakeResult.wakeAt 1020] 1000 false).idle_since = some 0) :=
  ⟨by decide, by decide, by decide, by decide,
    (min_sleep_uses_delta_adjusted ⟨10, 5, 30, false⟩ 0 []
        [WakeResult.wakeAt 1020] 1000 1020 (by decide) (by decide)).2
      (by decide) (by decide)⟩

end Autosuspend
